import Mathlib

/-!
# Stack layout and scheduler configuration of the STM32 round-robin scheduler

Shallow embedding of `Inc/main.h`.  The header consists of object-like
preprocessor definitions only; every literal constant becomes a field of
`Config` (so that statements can range over all configurations), and every
derived definition (`SRAM_END`, `T1_STACK_START`, ...) becomes a function of the
configuration that performs the same arithmetic, in the same order, in the
32-bit unsigned arithmetic of the target (`unsigned int` on Cortex-M).
-/

namespace RRScheduler

/-! ## Configuration constants -/

/-- The literal configuration constants of `Inc/main.h`, under their source names. -/
structure Config where
  MAX_TASKS : Nat
  SIZE_TASK_STACK : Nat
  SIZE_SCHED_STACK : Nat
  SRAM_START : Nat
  SIZE_SRAM : Nat
  TICK_HZ : Nat
  HSI_CLOCK : Nat
  DUMMY_XPSR : Nat
  deriving DecidableEq, Repr

/-- The values written in `Inc/main.h`: `4`, `512U`, `512U`, `0x20000000U`,
`( (16) * (1024))`, `1000U`, `8000000U`, `0x01000000`. -/
def shipped : Config where
  MAX_TASKS := 4
  SIZE_TASK_STACK := 512
  SIZE_SCHED_STACK := 512
  SRAM_START := 0x20000000
  SIZE_SRAM := 16 * 1024
  TICK_HZ := 1000
  HSI_CLOCK := 8000000
  DUMMY_XPSR := 0x01000000

/-! ## 32-bit unsigned arithmetic -/

/-- Addition of two `unsigned int` operands: the sum modulo `2^32`. -/
def uadd (a b : Nat) : Nat := (a + b) % 4294967296

/-- Subtraction of two `unsigned int` operands: the difference modulo `2^32`. -/
def usub (a b : Nat) : Nat := (a % 4294967296 + (4294967296 - b % 4294967296)) % 4294967296

/-- Multiplication of two `unsigned int` operands: the product modulo `2^32`. -/
def umul (a b : Nat) : Nat := (a * b) % 4294967296

/-! ## Derived definitions of `Inc/main.h` -/

/-- `#define SRAM_END ( (SRAM_START) + (SIZE_SRAM) )`. -/
def SRAM_END (c : Config) : Nat := uadd c.SRAM_START c.SIZE_SRAM

/-- `#define T1_STACK_START SRAM_END`. -/
def T1_STACK_START (c : Config) : Nat := SRAM_END c

/-- `#define T2_STACK_START ( (SRAM_END) -(1 * SIZE_TASK_STACK) )`. -/
def T2_STACK_START (c : Config) : Nat := usub (SRAM_END c) (umul 1 c.SIZE_TASK_STACK)

/-- `#define T3_STACK_START ( (SRAM_END) -(2 * SIZE_TASK_STACK) )`. -/
def T3_STACK_START (c : Config) : Nat := usub (SRAM_END c) (umul 2 c.SIZE_TASK_STACK)

/-- `#define T4_STACK_START ( (SRAM_END) -(3 * SIZE_TASK_STACK) )`. -/
def T4_STACK_START (c : Config) : Nat := usub (SRAM_END c) (umul 3 c.SIZE_TASK_STACK)

/-- `#define SCHED_STACK_START ( (SRAM_END) -(4 * SIZE_TASK_STACK) )`. -/
def SCHED_STACK_START (c : Config) : Nat := usub (SRAM_END c) (umul 4 c.SIZE_TASK_STACK)

/-- `#define SYSTICK_TIM_CLK HSI_CLOCK`. -/
def SYSTICK_TIM_CLK (c : Config) : Nat := c.HSI_CLOCK

/-- The stack base addresses the header defines, in the order of their definition:
the four task stacks, then the scheduler stack. -/
def stackBases (c : Config) : List Nat :=
  [T1_STACK_START c, T2_STACK_START c, T3_STACK_START c, T4_STACK_START c,
   SCHED_STACK_START c]

/-! ## Stack regions -/

/-- A half-open range of byte addresses `[lo, hi)`.  Bounds are integers so that a
range reaching below address zero is not silently truncated. -/
structure Region where
  lo : Int
  hi : Int
  deriving DecidableEq, Repr

/-- Membership of a byte address in a half-open range. -/
def Region.contains (r : Region) (a : Int) : Prop := r.lo ≤ a ∧ a < r.hi

instance (r : Region) (a : Int) : Decidable (r.contains a) := by
  unfold Region.contains
  infer_instance

/-- Number of bytes of a region. -/
def Region.size (r : Region) : Int := r.hi - r.lo

/-- The region of a full-descending stack with start address `S` and size `Z`:
the bytes `[S - Z, S)`. -/
def stackRegion (S Z : Nat) : Region := ⟨(S : Int) - (Z : Int), (S : Int)⟩

/-- The five stack regions: task stacks of `SIZE_TASK_STACK` bytes, the scheduler
stack of `SIZE_SCHED_STACK` bytes. -/
def stackRegions (c : Config) : List Region :=
  [stackRegion (T1_STACK_START c) c.SIZE_TASK_STACK,
   stackRegion (T2_STACK_START c) c.SIZE_TASK_STACK,
   stackRegion (T3_STACK_START c) c.SIZE_TASK_STACK,
   stackRegion (T4_STACK_START c) c.SIZE_TASK_STACK,
   stackRegion (SCHED_STACK_START c) c.SIZE_SCHED_STACK]

/-- The reserved memory range `[SRAM_START, SRAM_END)`. -/
def reserved (c : Config) : Region := ⟨(c.SRAM_START : Int), (SRAM_END c : Int)⟩

/-- Two regions share no byte. -/
def Region.disjoint (r s : Region) : Prop := ∀ a : Int, ¬ (r.contains a ∧ s.contains a)

/-- Every byte of `r` is a byte of `s`. -/
def Region.inside (r s : Region) : Prop := ∀ a : Int, r.contains a → s.contains a

/-- The five stack regions are pairwise disjoint and each lies inside the reserved
range. -/
def LayoutSafe (c : Config) : Prop :=
  (stackRegions c).Pairwise Region.disjoint ∧
  ∀ r ∈ stackRegions c, r.inside (reserved c)

/-- A valid configuration in the sense of the layout contract: positive stack
sizes, the five stacks fit into the reserved size, and the reserved range ends at
or below `2^32`. -/
def ValidConfig (c : Config) : Prop :=
  0 < c.SIZE_TASK_STACK ∧ 0 < c.SIZE_SCHED_STACK ∧
  4 * c.SIZE_TASK_STACK + c.SIZE_SCHED_STACK ≤ c.SIZE_SRAM ∧
  c.SRAM_START + c.SIZE_SRAM ≤ 2 ^ 32

instance (c : Config) : Decidable (ValidConfig c) := by
  unfold ValidConfig
  infer_instance

/-- A configuration whose reserved range is the top 16 KiB of the 32-bit address
space: `SRAM_START = 0xFFFFC000U`, all other constants as shipped. -/
def topOfMemory : Config := { shipped with SRAM_START := 0xFFFFC000 }

/-- A configuration that asks for more stack than the reserved range holds:
`SIZE_TASK_STACK = 4096U` with `SIZE_SRAM = 16384`, all other constants as shipped. -/
def overCommitted : Config := { shipped with SIZE_TASK_STACK := 4096 }

/-- A configuration that asks for more stack than the reserved range holds, with
equal task and scheduler stack sizes: `SIZE_TASK_STACK = SIZE_SCHED_STACK = 4096U`
with `SIZE_SRAM = 16384`, all other constants as shipped. -/
def overCommittedEqual : Config :=
  { shipped with SIZE_TASK_STACK := 4096, SIZE_SCHED_STACK := 4096 }

/-- A configuration that differs from the shipped one only in constants that are
not part of the stack layout. -/
def retimed : Config :=
  { shipped with MAX_TASKS := 8, TICK_HZ := 100, HSI_CLOCK := 16000000, DUMMY_XPSR := 0 }

/-! ## Exact-integer reading of the layout

The same formulas read over the unbounded integers, for comparison with the
32-bit evaluation above. -/

/-- The value of `SRAM_START + SIZE_SRAM` over the integers. -/
def SRAM_END_exact (c : Config) : Int := (c.SRAM_START : Int) + (c.SIZE_SRAM : Int)

/-- The value of `SRAM_END - k * SIZE_TASK_STACK` over the integers
(`k = 0` for the first task stack, ..., `k = 4` for the scheduler stack). -/
def base_exact (c : Config) (k : Nat) : Int :=
  SRAM_END_exact c - (k : Int) * (c.SIZE_TASK_STACK : Int)

/-! ## Context initializer -/

/-- Run state of a task (spec section 3, "Task Control Block"). -/
inductive TaskState where
  | READY
  | RUNNING
  | BLOCKED
  deriving DecidableEq, Repr

/-- Stack memory: the 32-bit word stored at each (word-aligned) byte address. -/
abbrev Memory := Nat → Nat

/-- Store one word. -/
def store (m : Memory) (addr val : Nat) : Memory :=
  fun a => if a = addr then val else m a

/-- Push one word on a full-descending stack: the stack pointer is decremented by
four, then the word is stored at the new stack pointer. -/
def push (st : Memory × Nat) (val : Nat) : Memory × Nat :=
  (store st.1 (usub st.2 4) val, usub st.2 4)

/-- Number of words of a saved exception frame: the eight words of the hardware
exception entry and the eight software-saved registers. -/
def FRAME_WORDS : Nat := 16

/-- Number of bytes of a saved exception frame. -/
def FRAME_BYTES : Nat := 4 * FRAME_WORDS

/-- Modelled from the spec: the saved exception frame (spec section 3); the code
that writes it is not part of `Inc/main.h`.  The words of the initial frame in the
order they are pushed, highest address first: the hardware-mimicked words, of
which the status register is the topmost and the return address the next (the
order of the processor's exception entry: xPSR, PC, LR, R12, R3, R2, R1, R0), then
the software-saved registers R11..R4.  The status word is the sentinel
`DUMMY_XPSR`, the return address is the entry point, and every other register is
zeroed. -/
def initial_frame (c : Config) (entry : Nat) : List Nat :=
  c.DUMMY_XPSR :: entry :: List.replicate (FRAME_WORDS - 2) 0

/-- Modelled from the spec: the task control block (spec section 3); the table is
not declared in `Inc/main.h`.  The stack region of the task is
`[stack_base - stack_size, stack_base)`. -/
structure TCB where
  id : Nat
  state : TaskState
  saved_stack_pointer : Nat
  stack_base : Nat
  stack_size : Nat
  entry_point : Nat
  deriving DecidableEq, Repr

/-- Modelled from the spec: the Context Initializer (spec section 4.2), whose code
is not part of `Inc/main.h`.  Writes the initial saved exception frame at the top
of the task's stack region, by pushing its words from the stack base downwards,
and sets the `saved_stack_pointer` of the control block to the lowest address of
the frame. -/
def context_init (c : Config) (m : Memory) (id base entry : Nat) : TCB × Memory :=
  let st := (initial_frame c entry).foldl push (m, base)
  ({ id := id, state := TaskState.READY, saved_stack_pointer := st.2, stack_base := base,
     stack_size := c.SIZE_TASK_STACK, entry_point := entry }, st.1)

/-- The stack bases of the task stacks, in task order. -/
def taskBases (c : Config) : List Nat :=
  [T1_STACK_START c, T2_STACK_START c, T3_STACK_START c, T4_STACK_START c]

/-- Run the Context Initializer once for each task of the list (task id, stack
base, entry point), in order, on the same memory. -/
def init_tasks (c : Config) : List (Nat × Nat × Nat) → Memory → List TCB × Memory
  | [], m => ([], m)
  | p :: rest, m =>
    let r := context_init c m p.1 p.2.1 p.2.2
    let rs := init_tasks c rest r.2
    (r.1 :: rs.1, rs.2)

/-- Modelled from the spec: the initialization entry point (spec section 6), whose
code is not part of `Inc/main.h`.  Takes the task entry points, assigns the stack
regions of the layout in task order, and initializes each control block and frame
with the Context Initializer; the table has `MAX_TASKS` entries. -/
def system_init (c : Config) (entries : List Nat) (m : Memory) : List TCB × Memory :=
  init_tasks c
    (((List.zip (taskBases c) entries).enum.map fun p => (p.1, p.2.1, p.2.2)).take
      c.MAX_TASKS) m

/-- The processor state after an exception return, as far as the frame
determines it. -/
structure Cpu where
  pc : Nat
  xpsr : Nat
  sp : Nat
  deriving DecidableEq, Repr

/-- Modelled from the spec: the resume half of the Switch Trampoline (spec
section 4.5), whose code is not part of `Inc/main.h`.  Starting at the saved stack
pointer, the eight software-saved registers are popped, then the exception return
pops the eight hardware words: R0..R3, R12, LR, then the return address into the
program counter and the status word into the status register. -/
def resume (m : Memory) (saved_stack_pointer : Nat) : Cpu :=
  { pc := m (uadd saved_stack_pointer 56), xpsr := m (uadd saved_stack_pointer 60),
    sp := uadd saved_stack_pointer FRAME_BYTES }

/-! ## Scheduler core -/

/-- Modelled from the spec: the state of the Scheduler Core (spec section 4.4),
whose code is not part of `Inc/main.h`.  `states` is the run-state column of the
control block table, `current` the index of the task selected last, and `idle`
tells that the scheduler's own idle context is running.  Saved stack pointers,
which the selection policy does not read, are left out. -/
structure Scheduler where
  states : List TaskState
  current : Nat
  idle : Bool
  deriving DecidableEq, Repr

/-- Step 1 of a tick (spec section 4.4): a task that is currently RUNNING is
marked READY; a task that blocked itself stays BLOCKED. -/
def preempt (s : Scheduler) : List TaskState :=
  if s.idle = false ∧ s.states[s.current]? = some TaskState.RUNNING then
    s.states.set s.current TaskState.READY
  else s.states

/-- The indices the round-robin walk visits: starting from the index after the
current one, in index order, wrapping at `MAX_TASKS`. -/
def walk (c : Config) (current : Nat) : List Nat :=
  (List.range c.MAX_TASKS).map fun k => (current + 1 + k) % c.MAX_TASKS

/-- Step 2 of a tick (spec section 4.4): the first READY task on the walk, or
`none` when there is none (the idle context is selected). -/
def select (c : Config) (states : List TaskState) (current : Nat) : Option Nat :=
  (walk c current).find? fun j => decide (states[j]? = some TaskState.READY)

/-- Modelled from the spec: one tick of the Scheduler Core (spec section 4.4),
whose code is not part of `Inc/main.h`: preempt the running task, select the next
READY task in round-robin order, and mark it RUNNING; with no READY task the idle
context runs. -/
def tick (c : Config) (s : Scheduler) : Scheduler :=
  match select c (preempt s) s.current with
  | some j => { states := (preempt s).set j TaskState.RUNNING, current := j, idle := false }
  | none => { states := preempt s, current := s.current, idle := true }

/-- The scheduler state after `n` ticks. -/
def run_ticks (c : Config) : Nat → Scheduler → Scheduler
  | 0, s => s
  | n + 1, s => tick c (run_ticks c n s)

/-- No task is BLOCKED, and the table is well formed: it has `MAX_TASKS` entries,
`current` indexes it, every task other than the current one is READY, and the
current one is READY or, outside the idle context, RUNNING. -/
def Scheduler.Unblocked (c : Config) (s : Scheduler) : Prop :=
  s.states.length = c.MAX_TASKS ∧ s.current < c.MAX_TASKS ∧
  (∀ j, j < c.MAX_TASKS → j ≠ s.current → s.states[j]? = some TaskState.READY) ∧
  (s.states[s.current]? = some TaskState.READY ∨
    (s.idle = false ∧ s.states[s.current]? = some TaskState.RUNNING))

/-- The state in which task `k` of four runs and the other three are READY. -/
def running (k : Nat) : Scheduler :=
  { states := (List.replicate 4 TaskState.READY).set k TaskState.RUNNING,
    current := k, idle := false }

/-! ## Theorems -/

/-- C1 (as stated, refuted): the configuration `SRAM_START = 0xFFFFC000`,
`SIZE_SRAM = 16384`, both stack sizes 512 is valid in the sense of the claim
(`SRAM_START + SIZE_SRAM = 2^32`), yet `SRAM_END` wraps to 0 in 32-bit arithmetic,
so byte `0xFFFFFC00` of the second task's region `[0xFFFFFC00, 0xFFFFFE00)` is
outside `[SRAM_START, SRAM_END)` and the layout is not safe. -/
theorem C1_counterexample_topOfMemory :
    ValidConfig topOfMemory ∧
    SRAM_END topOfMemory = 0 ∧
    T2_STACK_START topOfMemory = 0xFFFFFE00 ∧
    (stackRegion (T2_STACK_START topOfMemory) topOfMemory.SIZE_TASK_STACK).contains 0xFFFFFC00 ∧
    ¬ (reserved topOfMemory).contains 0xFFFFFC00 ∧
    ¬ LayoutSafe topOfMemory := by
  refine ⟨by decide, by decide, by decide, by decide, by decide, ?_⟩
  intro h
  have h2 := h.2 (stackRegion (T2_STACK_START topOfMemory) topOfMemory.SIZE_TASK_STACK)
    (by simp [stackRegions]) 0xFFFFFC00 (by decide)
  exact absurd h2 (by decide)

/-- The bases in exact form when nothing wraps: `SRAM_END` is the plain sum and the
`k`-th base is `SRAM_END - k * SIZE_TASK_STACK`. -/
theorem bases_of_no_wrap (c : Config)
    (hend : c.SRAM_START + c.SIZE_SRAM < 4294967296)
    (hroom : 4 * c.SIZE_TASK_STACK ≤ c.SRAM_START + c.SIZE_SRAM) :
    SRAM_END c = c.SRAM_START + c.SIZE_SRAM ∧
    T1_STACK_START c = c.SRAM_START + c.SIZE_SRAM ∧
    T2_STACK_START c = c.SRAM_START + c.SIZE_SRAM - 1 * c.SIZE_TASK_STACK ∧
    T3_STACK_START c = c.SRAM_START + c.SIZE_SRAM - 2 * c.SIZE_TASK_STACK ∧
    T4_STACK_START c = c.SRAM_START + c.SIZE_SRAM - 3 * c.SIZE_TASK_STACK ∧
    SCHED_STACK_START c = c.SRAM_START + c.SIZE_SRAM - 4 * c.SIZE_TASK_STACK := by
  unfold T1_STACK_START T2_STACK_START T3_STACK_START T4_STACK_START SCHED_STACK_START
    SRAM_END uadd usub umul
  omega

/-- C1 (amended): for every configuration with positive stack sizes,
`4*SIZE_TASK_STACK + SIZE_SCHED_STACK <= SIZE_SRAM` and
`SRAM_START + SIZE_SRAM < 2^32` (so that `SRAM_END` is representable in 32 bits),
the five stack regions `[S - Z, S)` are pairwise disjoint and each lies inside
`[SRAM_START, SRAM_END)`. -/
theorem C1_layout_safe (c : Config)
    (hT : 0 < c.SIZE_TASK_STACK) (hS : 0 < c.SIZE_SCHED_STACK)
    (hfit : 4 * c.SIZE_TASK_STACK + c.SIZE_SCHED_STACK ≤ c.SIZE_SRAM)
    (hend : c.SRAM_START + c.SIZE_SRAM < 2 ^ 32) :
    LayoutSafe c := by
  have hend2 : c.SRAM_START + c.SIZE_SRAM < 4294967296 := by simpa using hend
  obtain ⟨hE, h1, h2, h3, h4, h5⟩ := bases_of_no_wrap c hend2 (by omega)
  unfold LayoutSafe
  constructor
  · simp only [stackRegions, stackRegion, List.pairwise_cons, List.mem_cons,
      List.mem_singleton, List.not_mem_nil, forall_eq_or_imp, forall_eq,
      Region.disjoint, Region.contains, h1, h2, h3, h4, h5, false_implies, implies_true,
      and_true, List.Pairwise.nil]
    refine ⟨⟨?_, ?_, ?_, ?_⟩, ⟨?_, ?_, ?_⟩, ⟨?_, ?_⟩, ?_⟩ <;> intro a <;> omega
  · intro r hr a ha
    simp only [stackRegions, stackRegion, List.mem_cons, List.mem_singleton,
      List.not_mem_nil, or_false, h1, h2, h3, h4, h5] at hr
    simp only [reserved, Region.contains, hE]
    rcases hr with rfl | rfl | rfl | rfl | rfl <;>
      simp only [Region.contains] at ha <;> omega

/-- C1 (witness): the shipped configuration satisfies the hypotheses, hence its
layout is safe. -/
theorem C1_layout_safe_shipped :
    (0 < shipped.SIZE_TASK_STACK ∧ 0 < shipped.SIZE_SCHED_STACK ∧
      4 * shipped.SIZE_TASK_STACK + shipped.SIZE_SCHED_STACK ≤ shipped.SIZE_SRAM ∧
      shipped.SRAM_START + shipped.SIZE_SRAM < 2 ^ 32) ∧
    LayoutSafe shipped :=
  ⟨by decide, C1_layout_safe shipped (by decide) (by decide) (by decide) (by decide)⟩

/-- C2: the shipped layout has exactly `MAX_TASKS + 1 = 5` bases; in the order
T1, T2, T3, T4, scheduler the `k`-th base is `SRAM_END - k * SIZE_TASK_STACK`, that
is `0x20004000, 0x20003E00, 0x20003C00, 0x20003A00, 0x20003800`; the bases are
strictly decreasing, consecutive ones are `SIZE_TASK_STACK` bytes apart, and every
region, the scheduler's included, has `SIZE_TASK_STACK = SIZE_SCHED_STACK = 512`
bytes. -/
theorem C2_shipped_layout :
    (stackBases shipped).length = shipped.MAX_TASKS + 1 ∧
    shipped.MAX_TASKS + 1 = 5 ∧
    (∀ k, k ≤ shipped.MAX_TASKS →
      (stackBases shipped)[k]? = some (SRAM_END shipped - k * shipped.SIZE_TASK_STACK) ∧
      k * shipped.SIZE_TASK_STACK ≤ SRAM_END shipped) ∧
    stackBases shipped = [0x20004000, 0x20003E00, 0x20003C00, 0x20003A00, 0x20003800] ∧
    (stackBases shipped).Pairwise (fun x y => y < x) ∧
    (∀ k, k < shipped.MAX_TASKS →
      (stackBases shipped).getD k 0 =
        (stackBases shipped).getD (k + 1) 0 + shipped.SIZE_TASK_STACK) ∧
    shipped.SIZE_SCHED_STACK = shipped.SIZE_TASK_STACK ∧
    shipped.SIZE_TASK_STACK = 512 ∧
    (∀ r ∈ stackRegions shipped, r.size = (shipped.SIZE_TASK_STACK : Int)) := by
  refine ⟨rfl, rfl, ?_, by decide, by decide, ?_, rfl, rfl, by decide⟩
  · intro k hk
    have hk4 : k ≤ 4 := hk
    interval_cases k <;> decide
  · intro k hk
    have hk4 : k < 4 := hk
    interval_cases k <;> decide

/-- C3 (as stated, refuted): with `SIZE_TASK_STACK = 4096` and `SIZE_SRAM = 16384`
the request exceeds the reserved range, `(MAX_TASKS + 1) * SIZE_TASK_STACK >
SIZE_SRAM`, yet the layout is not rejected: it yields the five bases
`0x20004000, 0x20003000, 0x20002000, 0x20001000, 0x20000000`, and the scheduler
region `[0x1FFFFE00, 0x20000000)` lies below `SRAM_START`. -/
theorem C3_counterexample_overCommitted :
    (overCommitted.MAX_TASKS + 1) * overCommitted.SIZE_TASK_STACK > overCommitted.SIZE_SRAM ∧
    stackBases overCommitted =
      [0x20004000, 0x20003000, 0x20002000, 0x20001000, 0x20000000] ∧
    stackBases overCommitted ≠ [] ∧
    stackRegion (SCHED_STACK_START overCommitted) overCommitted.SIZE_SCHED_STACK =
      ⟨0x1FFFFE00, 0x20000000⟩ ∧
    (stackRegion (SCHED_STACK_START overCommitted) overCommitted.SIZE_SCHED_STACK).hi
      ≤ (overCommitted.SRAM_START : Int) ∧
    ¬ (∀ c : Config, (c.MAX_TASKS + 1) * c.SIZE_TASK_STACK > c.SIZE_SRAM →
        stackBases c = []) := by
  refine ⟨by decide, by decide, by decide, by decide, by decide, ?_⟩
  intro h
  exact absurd (h overCommitted (by decide)) (by decide)

/-- Two stack regions of the same positive size that share no byte are at least
that size apart. -/
theorem stackRegion_disjoint_sep (x y T : Nat) (hT : 0 < T)
    (h : (stackRegion x T).disjoint (stackRegion y T)) :
    (x : Int) ≤ (y : Int) - T ∨ (y : Int) ≤ (x : Int) - T := by
  have h1 := h ((x : Int) - T)
  have h2 := h ((y : Int) - T)
  simp only [stackRegion, Region.contains] at h1 h2
  omega

/-- A non-empty stack region inside the reserved range lies between `SRAM_START`
and `SRAM_START + SIZE_SRAM`. -/
theorem stackRegion_inside_bounds (c : Config) (x T : Nat) (hT : 0 < T)
    (h : (stackRegion x T).inside (reserved c)) :
    (c.SRAM_START : Int) ≤ (x : Int) - T ∧
    (x : Int) ≤ (c.SRAM_START : Int) + c.SIZE_SRAM := by
  have h1 := h ((x : Int) - T)
  have h2 := h ((x : Int) - 1)
  have hE : SRAM_END c ≤ c.SRAM_START + c.SIZE_SRAM := Nat.mod_le _ _
  simp only [stackRegion, Region.contains, reserved] at h1 h2
  omega

/-- C3 (amended): the layout performs no range check and is never rejected.  For
every configuration with `(MAX_TASKS + 1) * SIZE_TASK_STACK > SIZE_SRAM`, where
`MAX_TASKS = 4` and `SIZE_SCHED_STACK = SIZE_TASK_STACK` as in the header, the
layout still yields `MAX_TASKS + 1` stack bases, and the five regions are not
pairwise disjoint and inside `[SRAM_START, SRAM_END)`; when moreover the 32-bit
arithmetic does not wrap (`SRAM_START + SIZE_SRAM < 2^32` and
`4 * SIZE_TASK_STACK <= SRAM_START + SIZE_SRAM`), the scheduler region contains a
byte below `SRAM_START`. -/
theorem C3_layout_unchecked (c : Config)
    (hover : (c.MAX_TASKS + 1) * c.SIZE_TASK_STACK > c.SIZE_SRAM)
    (hn : c.MAX_TASKS = 4)
    (heq : c.SIZE_SCHED_STACK = c.SIZE_TASK_STACK) :
    stackBases c ≠ [] ∧
    (stackBases c).length = c.MAX_TASKS + 1 ∧
    ¬ LayoutSafe c ∧
    (c.SRAM_START + c.SIZE_SRAM < 2 ^ 32 →
      4 * c.SIZE_TASK_STACK ≤ c.SRAM_START + c.SIZE_SRAM →
      ∃ a : Int, (stackRegion (SCHED_STACK_START c) c.SIZE_SCHED_STACK).contains a ∧
        a < (c.SRAM_START : Int)) := by
  rw [hn] at hover
  have hT : 0 < c.SIZE_TASK_STACK := by omega
  refine ⟨by simp [stackBases], by simp [stackBases, hn], ?_, ?_⟩
  · rintro ⟨hd, hi⟩
    simp only [stackRegions, heq, List.pairwise_cons, List.mem_cons, List.mem_singleton,
      List.not_mem_nil, forall_eq_or_imp, forall_eq, false_implies, implies_true,
      and_true, List.Pairwise.nil] at hd hi
    obtain ⟨⟨d12, d13, d14, d15⟩, ⟨d23, d24, d25⟩, ⟨d34, d35⟩, d45⟩ := hd
    obtain ⟨i1, i2, i3, i4, i5⟩ := hi
    have a12 := stackRegion_disjoint_sep _ _ _ hT d12
    have a13 := stackRegion_disjoint_sep _ _ _ hT d13
    have a14 := stackRegion_disjoint_sep _ _ _ hT d14
    have a15 := stackRegion_disjoint_sep _ _ _ hT d15
    have a23 := stackRegion_disjoint_sep _ _ _ hT d23
    have a24 := stackRegion_disjoint_sep _ _ _ hT d24
    have a25 := stackRegion_disjoint_sep _ _ _ hT d25
    have a34 := stackRegion_disjoint_sep _ _ _ hT d34
    have a35 := stackRegion_disjoint_sep _ _ _ hT d35
    have a45 := stackRegion_disjoint_sep _ _ _ hT d45
    have b1 := stackRegion_inside_bounds c _ _ hT i1
    have b2 := stackRegion_inside_bounds c _ _ hT i2
    have b3 := stackRegion_inside_bounds c _ _ hT i3
    have b4 := stackRegion_inside_bounds c _ _ hT i4
    have b5 := stackRegion_inside_bounds c _ _ hT i5
    generalize T1_STACK_START c = x1 at *
    generalize T2_STACK_START c = x2 at *
    generalize T3_STACK_START c = x3 at *
    generalize T4_STACK_START c = x4 at *
    generalize SCHED_STACK_START c = x5 at *
    clear d12 d13 d14 d15 d23 d24 d25 d34 d35 d45 i1 i2 i3 i4 i5
    omega
  · intro hend hroom
    have hend2 : c.SRAM_START + c.SIZE_SRAM < 4294967296 := by simpa using hend
    obtain ⟨-, -, -, -, -, h5⟩ := bases_of_no_wrap c hend2 hroom
    refine ⟨(SCHED_STACK_START c : Int) - (c.SIZE_SCHED_STACK : Int), ?_, ?_⟩
    · simp only [stackRegion, Region.contains]
      omega
    · rw [h5, heq]
      omega

/-- C3 (witness): the configuration `SIZE_TASK_STACK = SIZE_SCHED_STACK = 4096`,
`SIZE_SRAM = 16384` meets the hypotheses; its layout has five bases, is not safe,
and byte `0x1FFFF000` of its scheduler region `[0x1FFFF000, 0x20000000)` is below
`SRAM_START = 0x20000000`. -/
theorem C3_layout_unchecked_overCommittedEqual :
    ((overCommittedEqual.MAX_TASKS + 1) * overCommittedEqual.SIZE_TASK_STACK
        > overCommittedEqual.SIZE_SRAM ∧
      overCommittedEqual.MAX_TASKS = 4 ∧
      overCommittedEqual.SIZE_SCHED_STACK = overCommittedEqual.SIZE_TASK_STACK) ∧
    (stackBases overCommittedEqual ≠ [] ∧
      (stackBases overCommittedEqual).length = overCommittedEqual.MAX_TASKS + 1 ∧
      ¬ LayoutSafe overCommittedEqual ∧
      (overCommittedEqual.SRAM_START + overCommittedEqual.SIZE_SRAM < 2 ^ 32 →
        4 * overCommittedEqual.SIZE_TASK_STACK
          ≤ overCommittedEqual.SRAM_START + overCommittedEqual.SIZE_SRAM →
        ∃ a : Int,
          (stackRegion (SCHED_STACK_START overCommittedEqual)
            overCommittedEqual.SIZE_SCHED_STACK).contains a ∧
          a < (overCommittedEqual.SRAM_START : Int))) ∧
    (overCommittedEqual.SRAM_START + overCommittedEqual.SIZE_SRAM < 2 ^ 32 ∧
      4 * overCommittedEqual.SIZE_TASK_STACK
        ≤ overCommittedEqual.SRAM_START + overCommittedEqual.SIZE_SRAM) ∧
    stackRegion (SCHED_STACK_START overCommittedEqual) overCommittedEqual.SIZE_SCHED_STACK =
      ⟨0x1FFFF000, 0x20000000⟩ :=
  ⟨by decide, C3_layout_unchecked overCommittedEqual (by decide) (by decide) (by decide),
   by decide, by decide⟩

/-- C6: the shipped tick configuration is `TICK_HZ = 1000` with
`SYSTICK_TIM_CLK = HSI_CLOCK = 8000000`; the tick period is exactly
`SYSTICK_TIM_CLK / TICK_HZ = 8000` timer cycles with remainder 0, and the countdown
value `8000 - 1` is below `2^24`. -/
theorem C6_tick_period_exact :
    shipped.TICK_HZ = 1000 ∧
    SYSTICK_TIM_CLK shipped = shipped.HSI_CLOCK ∧
    shipped.HSI_CLOCK = 8000000 ∧
    SYSTICK_TIM_CLK shipped / shipped.TICK_HZ = 8000 ∧
    SYSTICK_TIM_CLK shipped % shipped.TICK_HZ = 0 ∧
    8000 * shipped.TICK_HZ = SYSTICK_TIM_CLK shipped ∧
    SYSTICK_TIM_CLK shipped / shipped.TICK_HZ - 1 = 7999 ∧
    SYSTICK_TIM_CLK shipped / shipped.TICK_HZ - 1 < 2 ^ 24 := by
  decide

/-- C7: the stack layout is a function of `SRAM_START`, `SIZE_SRAM`,
`SIZE_TASK_STACK` and `SIZE_SCHED_STACK` alone: two configurations that agree on
these four constants (and may differ in every other one) have the same end
address, the same five bases and the same five regions. -/
theorem C7_layout_deterministic (c d : Config)
    (hstart : c.SRAM_START = d.SRAM_START) (hsize : c.SIZE_SRAM = d.SIZE_SRAM)
    (htask : c.SIZE_TASK_STACK = d.SIZE_TASK_STACK)
    (hsched : c.SIZE_SCHED_STACK = d.SIZE_SCHED_STACK) :
    SRAM_END c = SRAM_END d ∧ stackBases c = stackBases d ∧
    stackRegions c = stackRegions d ∧ reserved c = reserved d := by
  simp only [stackBases, stackRegions, reserved, T1_STACK_START, T2_STACK_START,
    T3_STACK_START, T4_STACK_START, SCHED_STACK_START, SRAM_END, hstart, hsize, htask,
    hsched, and_self]

/-- C7 (witness): the shipped configuration and one with other values of
`MAX_TASKS`, `TICK_HZ`, `HSI_CLOCK` and `DUMMY_XPSR` are different configurations
with the same layout. -/
theorem C7_layout_deterministic_retimed :
    shipped ≠ retimed ∧
    SRAM_END shipped = SRAM_END retimed ∧ stackBases shipped = stackBases retimed ∧
    stackRegions shipped = stackRegions retimed ∧ reserved shipped = reserved retimed :=
  ⟨by decide, C7_layout_deterministic shipped retimed rfl rfl rfl rfl⟩

/-- C8: in every configuration whose `SRAM_START`, `SIZE_SRAM` and
`SIZE_TASK_STACK` are multiples of 8, every stack base is a multiple of 8 (hence
also of 4). -/
theorem C8_bases_aligned (c : Config)
    (hstart : 8 ∣ c.SRAM_START) (hsize : 8 ∣ c.SIZE_SRAM) (htask : 8 ∣ c.SIZE_TASK_STACK) :
    ∀ b ∈ stackBases c, 8 ∣ b ∧ 4 ∣ b := by
  intro b hb
  simp only [stackBases, List.mem_cons, List.mem_singleton, List.not_mem_nil, or_false,
    T1_STACK_START, T2_STACK_START, T3_STACK_START, T4_STACK_START, SCHED_STACK_START,
    SRAM_END, uadd, usub, umul] at hb
  rcases hb with rfl | rfl | rfl | rfl | rfl <;> constructor <;> omega

/-- C8 (witness): the shipped constants are multiples of 8, so the five shipped
bases are 8-byte aligned. -/
theorem C8_bases_aligned_shipped :
    (8 ∣ shipped.SRAM_START ∧ 8 ∣ shipped.SIZE_SRAM ∧ 8 ∣ shipped.SIZE_TASK_STACK) ∧
    ∀ b ∈ stackBases shipped, 8 ∣ b ∧ 4 ∣ b :=
  ⟨by decide, C8_bases_aligned shipped (by decide) (by decide) (by decide)⟩

/-- C9: for the shipped constants the 32-bit evaluation of `SRAM_END` and of the
five bases equals the exact integer value: `SIZE_SRAM` is a non-negative `int`
value, `SRAM_START + SIZE_SRAM` is below `2^32`, and no `k * SIZE_TASK_STACK`
(`k = 1..4`) exceeds `SRAM_END`. -/
theorem C9_shipped_no_wrap :
    shipped.SIZE_SRAM < 2 ^ 31 ∧
    shipped.SRAM_START + shipped.SIZE_SRAM < 2 ^ 32 ∧
    (SRAM_END shipped : Int) = SRAM_END_exact shipped ∧
    (T1_STACK_START shipped : Int) = base_exact shipped 0 ∧
    (T2_STACK_START shipped : Int) = base_exact shipped 1 ∧
    (T3_STACK_START shipped : Int) = base_exact shipped 2 ∧
    (T4_STACK_START shipped : Int) = base_exact shipped 3 ∧
    (SCHED_STACK_START shipped : Int) = base_exact shipped 4 ∧
    (∀ k ∈ [1, 2, 3, 4],
      k * shipped.SIZE_TASK_STACK < 2 ^ 32 ∧
      k * shipped.SIZE_TASK_STACK ≤ SRAM_END shipped ∧ 0 ≤ base_exact shipped k) := by
  decide

/-- C10: the shipped `DUMMY_XPSR` equals `2^24`: it is below `2^32`, bit 24 is set,
every other bit is clear, and in particular the low nine bits (the exception
number field) are zero. -/
theorem C10_dummy_xpsr_bits :
    shipped.DUMMY_XPSR = 2 ^ 24 ∧
    shipped.DUMMY_XPSR < 2 ^ 32 ∧
    shipped.DUMMY_XPSR.testBit 24 = true ∧
    (∀ i, i ≠ 24 → shipped.DUMMY_XPSR.testBit i = false) ∧
    shipped.DUMMY_XPSR % 2 ^ 9 = 0 := by
  have h : shipped.DUMMY_XPSR = 2 ^ 24 := by decide
  refine ⟨h, by decide, by decide, ?_, by decide⟩
  intro i hi
  rw [h, Nat.testBit_two_pow]
  simpa using fun e => hi e.symm

/-- After step 1 of a tick, with no task BLOCKED, every task is READY. -/
theorem preempt_all_ready (c : Config) (s : Scheduler) (hs : s.Unblocked c) :
    (preempt s).length = c.MAX_TASKS ∧
    ∀ j, j < c.MAX_TASKS → (preempt s)[j]? = some TaskState.READY := by
  obtain ⟨hlen, hcur, hoth, hown⟩ := hs
  unfold preempt
  split
  · refine ⟨by simp [hlen], ?_⟩
    intro j hj
    by_cases hjc : j = s.current
    · subst hjc
      simp [List.getElem?_set_self, hlen, hj]
    · rw [List.getElem?_set_ne (Ne.symm hjc)]
      exact hoth j hj hjc
  · rename_i hno
    refine ⟨hlen, ?_⟩
    intro j hj
    by_cases hjc : j = s.current
    · subst hjc
      rcases hown with h | h
      · exact h
      · exact absurd h hno
    · exact hoth j hj hjc

/-- With no task BLOCKED, the walk stops at its first index. -/
theorem select_next (c : Config) (s : Scheduler) (hs : s.Unblocked c) :
    select c (preempt s) s.current = some ((s.current + 1) % c.MAX_TASKS) := by
  have hpos : 0 < c.MAX_TASKS := Nat.lt_of_le_of_lt (Nat.zero_le _) hs.2.1
  have hready := (preempt_all_ready c s hs).2 ((s.current + 1) % c.MAX_TASKS)
    (Nat.mod_lt _ hpos)
  obtain ⟨n, hn⟩ : ∃ n, c.MAX_TASKS = n + 1 := ⟨c.MAX_TASKS - 1, by omega⟩
  unfold select walk
  rw [hn] at hready ⊢
  rw [List.range_succ_eq_map, List.map_cons, List.find?_cons_of_pos]
  simpa using hready

/-- With no task BLOCKED, a tick selects the next index and runs it. -/
theorem tick_next (c : Config) (s : Scheduler) (hs : s.Unblocked c) :
    tick c s =
      { states := (preempt s).set ((s.current + 1) % c.MAX_TASKS) TaskState.RUNNING,
        current := (s.current + 1) % c.MAX_TASKS, idle := false } := by
  unfold tick
  rw [select_next c s hs]

/-- A tick from a state with no task BLOCKED leads to such a state, in which the
selected task is RUNNING. -/
theorem tick_unblocked (c : Config) (s : Scheduler) (hs : s.Unblocked c) :
    (tick c s).Unblocked c ∧
    (tick c s).states[(tick c s).current]? = some TaskState.RUNNING := by
  have hpos : 0 < c.MAX_TASKS := Nat.lt_of_le_of_lt (Nat.zero_le _) hs.2.1
  obtain ⟨hlen, hready⟩ := preempt_all_ready c s hs
  have hlt : (s.current + 1) % c.MAX_TASKS < c.MAX_TASKS := Nat.mod_lt _ hpos
  have hrun : ((preempt s).set ((s.current + 1) % c.MAX_TASKS) TaskState.RUNNING)[
      (s.current + 1) % c.MAX_TASKS]? = some TaskState.RUNNING := by
    simp [List.getElem?_set_self, hlen, hlt]
  rw [tick_next c s hs]
  refine ⟨⟨by simp [hlen], hlt, ?_, Or.inr ⟨rfl, hrun⟩⟩, hrun⟩
  intro j hj hjc
  show ((preempt s).set ((s.current + 1) % c.MAX_TASKS) TaskState.RUNNING)[j]? = _
  rw [List.getElem?_set_ne (Ne.symm hjc)]
  exact hready j hj

/-- Ticks alone never block a task. -/
theorem run_ticks_unblocked (c : Config) (s : Scheduler) (hs : s.Unblocked c) (m : Nat) :
    (run_ticks c m s).Unblocked c := by
  induction m with
  | zero => exact hs
  | succ m ih => exact (tick_unblocked c _ ih).1

/-- C5: in the shipped configuration, along every run of ticks that starts with no
task BLOCKED, no task is BLOCKED after any number `m` of ticks; the next tick
selects task `(current + 1) mod MAX_TASKS`, which is then RUNNING; and the four
ticks `m + 1 .. m + 4` select `current + 1, current + 2, current + 3, current + 4`
modulo 4, which is every task index `0..3` exactly once. -/
theorem C5_round_robin (s : Scheduler) (hs : s.Unblocked shipped) (m : Nat) :
    (run_ticks shipped m s).Unblocked shipped ∧
    (run_ticks shipped (m + 1) s).idle = false ∧
    (run_ticks shipped (m + 1) s).current =
      ((run_ticks shipped m s).current + 1) % shipped.MAX_TASKS ∧
    (run_ticks shipped (m + 1) s).states[(run_ticks shipped (m + 1) s).current]? =
      some TaskState.RUNNING ∧
    (List.range shipped.MAX_TASKS).map (fun i => (run_ticks shipped (m + 1 + i) s).current) =
      (List.range shipped.MAX_TASKS).map
        (fun i => ((run_ticks shipped m s).current + 1 + i) % shipped.MAX_TASKS) ∧
    ((List.range shipped.MAX_TASKS).map
      (fun i => (run_ticks shipped (m + 1 + i) s).current)).Perm
      (List.range shipped.MAX_TASKS) := by
  have hstep : ∀ k, (run_ticks shipped (k + 1) s).current =
      ((run_ticks shipped k s).current + 1) % 4 := by
    intro k
    show (tick shipped (run_ticks shipped k s)).current = _
    rw [tick_next shipped _ (run_ticks_unblocked shipped s hs k)]
    rfl
  have hm := run_ticks_unblocked shipped s hs m
  have hcur : (run_ticks shipped m s).current < 4 := hm.2.1
  have hseq : (List.range shipped.MAX_TASKS).map
      (fun i => (run_ticks shipped (m + 1 + i) s).current) =
      (List.range shipped.MAX_TASKS).map
        (fun i => ((run_ticks shipped m s).current + 1 + i) % shipped.MAX_TASKS) := by
    show (List.range 4).map _ = (List.range 4).map _
    have h1 := hstep m
    have h2 := hstep (m + 1)
    have h3 := hstep (m + 2)
    have h4 := hstep (m + 3)
    simp only [List.range_succ, List.range_zero, List.map_append, List.map_cons,
      List.map_nil, List.nil_append, Nat.add_zero, h1, h2, h3, h4]
    generalize (run_ticks shipped m s).current = k at hcur
    interval_cases k <;> rfl
  refine ⟨hm, ?_, hstep m, ?_, hseq, ?_⟩
  · show (tick shipped (run_ticks shipped m s)).idle = false
    rw [tick_next shipped _ hm]
  · exact (tick_unblocked shipped _ hm).2
  · rw [hseq]
    generalize (run_ticks shipped m s).current = k at hcur
    interval_cases k <;> decide

/-- C5 (witness): starting with task 0 RUNNING and the others READY, the first four
ticks select tasks 1, 2, 3, 0. -/
theorem C5_round_robin_from_task0 :
    (running 0).Unblocked shipped ∧
    (List.range shipped.MAX_TASKS).map
      (fun i => (run_ticks shipped (0 + 1 + i) (running 0)).current) = [1, 2, 3, 0] :=
  ⟨⟨rfl, by decide, by decide, Or.inr ⟨rfl, rfl⟩⟩,
   ((C5_round_robin (running 0) ⟨rfl, by decide, by decide, Or.inr ⟨rfl, rfl⟩⟩ 0).2.2.2.2.1).trans
     rfl⟩

/-- Pushing a list of words on a descending stack that has room for them: the
stack pointer drops by four bytes per word, the `k`-th word pushed lies `4 * (k + 1)`
bytes below the old stack pointer, and memory outside the pushed range is
unchanged. -/
theorem foldl_push (vs : List Nat) : ∀ (m : Memory) (sp : Nat),
    4 * vs.length ≤ sp → sp < 4294967296 →
    (vs.foldl push (m, sp)).2 = sp - 4 * vs.length ∧
    (∀ k, ∀ v, vs[k]? = some v → (vs.foldl push (m, sp)).1 (sp - 4 * (k + 1)) = v) ∧
    (∀ a, a < sp - 4 * vs.length ∨ sp ≤ a → (vs.foldl push (m, sp)).1 a = m a) := by
  induction vs with
  | nil =>
    intro m sp _ _
    refine ⟨by simp, ?_, ?_⟩
    · intro k v hk
      simp at hk
    · intro a _
      rfl
  | cons x rest ih =>
    intro m sp hlen hsp
    simp only [List.length_cons] at hlen
    have hsub : usub sp 4 = sp - 4 := by
      unfold usub
      omega
    have hpush : push (m, sp) x = (store m (sp - 4) x, sp - 4) := by
      simp only [push, hsub]
    obtain ⟨h1, h2, h3⟩ := ih (store m (sp - 4) x) (sp - 4) (by omega) (by omega)
    simp only [List.foldl_cons, hpush, List.length_cons]
    refine ⟨by rw [h1]; omega, ?_, ?_⟩
    · intro k v hk
      cases k with
      | zero =>
        simp only [List.getElem?_cons_zero, Option.some.injEq] at hk
        rw [h3 _ (Or.inr (by omega))]
        simp [store, hk]
      | succ k =>
        simp only [List.getElem?_cons_succ] at hk
        have := h2 k v hk
        have he : sp - 4 * (k + 1 + 1) = sp - 4 - 4 * (k + 1) := by omega
        rw [he]
        exact this
    · intro a ha
      rw [h3 a (by omega)]
      have : a ≠ sp - 4 := by omega
      simp [store, this]

/-- Effect of the Context Initializer on a stack base with room for the frame: the
control block records the lowest frame address as saved stack pointer, the two
topmost words of the region hold the sentinel and the entry point, and memory
outside the frame is unchanged. -/
theorem context_init_spec (c : Config) (m : Memory) (id base entry : Nat)
    (hroom : 64 ≤ base) (hb : base < 4294967296) :
    (context_init c m id base entry).1 =
      { id := id, state := TaskState.READY, saved_stack_pointer := base - 64,
        stack_base := base, stack_size := c.SIZE_TASK_STACK, entry_point := entry } ∧
    (context_init c m id base entry).2 (base - 4) = c.DUMMY_XPSR ∧
    (context_init c m id base entry).2 (base - 8) = entry ∧
    (∀ a, a < base - 64 ∨ base ≤ a → (context_init c m id base entry).2 a = m a) := by
  have hlen : (initial_frame c entry).length = 16 := by
    simp [initial_frame, FRAME_WORDS]
  obtain ⟨h1, h2, h3⟩ := foldl_push (initial_frame c entry) m base (by omega) hb
  rw [hlen] at h1 h3
  refine ⟨?_, ?_, ?_, ?_⟩
  · simp only [context_init, h1]
  · exact h2 0 c.DUMMY_XPSR rfl
  · exact h2 1 entry rfl
  · intro a ha
    exact h3 a ha

/-- C4: after initialization of the shipped configuration with four entry points,
on any initial memory, the control block of every task `i < MAX_TASKS` holds the
`i`-th entry point and the `i`-th task stack base; its saved stack pointer is
`FRAME_BYTES` below the stack base, inside the task's region; in stack memory the
topmost word of the region (the status-register word of the frame) is
`DUMMY_XPSR = 0x01000000` and the word below it (the return address) is the
entry point; and resuming from the saved stack pointer starts at the entry point
with the sentinel status word. -/
theorem C4_initial_frame (m : Memory) (entries : List Nat)
    (hlen : entries.length = shipped.MAX_TASKS) (i : Nat) (hi : i < shipped.MAX_TASKS) :
    ∃ t e, (system_init shipped entries m).1[i]? = some t ∧ entries[i]? = some e ∧
      t.id = i ∧ t.entry_point = e ∧
      (taskBases shipped)[i]? = some t.stack_base ∧
      t.stack_size = shipped.SIZE_TASK_STACK ∧
      t.saved_stack_pointer + FRAME_BYTES = t.stack_base ∧
      t.stack_base - t.stack_size ≤ t.saved_stack_pointer ∧
      (system_init shipped entries m).2 (t.stack_base - 4) = shipped.DUMMY_XPSR ∧
      shipped.DUMMY_XPSR = 0x01000000 ∧
      (system_init shipped entries m).2 (t.stack_base - 8) = e ∧
      (resume (system_init shipped entries m).2 t.saved_stack_pointer).pc = e ∧
      (resume (system_init shipped entries m).2 t.saved_stack_pointer).xpsr = 0x01000000 ∧
      (resume (system_init shipped entries m).2 t.saved_stack_pointer).sp = t.stack_base := by
  have hi4 : i < 4 := hi
  match entries, hlen with
  | [e0, e1, e2, e3], _ =>
    have hB : taskBases shipped = [536887296, 536886784, 536886272, 536885760] := by decide
    have hl : ((List.zip [536887296, 536886784, 536886272, 536885760] [e0, e1, e2, e3]).enum.map
        fun p => (p.1, p.2.1, p.2.2)).take shipped.MAX_TASKS =
        [(0, 536887296, e0), (1, 536886784, e1), (2, 536886272, e2), (3, 536885760, e3)] := rfl
    have hsys : system_init shipped [e0, e1, e2, e3] m =
        init_tasks shipped [(0, 536887296, e0), (1, 536886784, e1), (2, 536886272, e2),
          (3, 536885760, e3)] m := by
      rw [system_init, hB, hl]
    obtain ⟨t0, x0, y0, u0⟩ := context_init_spec shipped m 0 536887296 e0 (by omega) (by omega)
    obtain ⟨t1, x1, y1, u1⟩ := context_init_spec shipped
      (context_init shipped m 0 536887296 e0).2 1 536886784 e1 (by omega) (by omega)
    obtain ⟨t2, x2, y2, u2⟩ := context_init_spec shipped
      (context_init shipped (context_init shipped m 0 536887296 e0).2 1 536886784 e1).2
      2 536886272 e2 (by omega) (by omega)
    obtain ⟨t3, x3, y3, u3⟩ := context_init_spec shipped
      (context_init shipped (context_init shipped
        (context_init shipped m 0 536887296 e0).2 1 536886784 e1).2 2 536886272 e2).2
      3 536885760 e3 (by omega) (by omega)
    rw [hsys, hB]
    simp only [init_tasks]
    generalize context_init shipped m 0 536887296 e0 = r0 at *
    generalize context_init shipped r0.2 1 536886784 e1 = r1 at *
    generalize context_init shipped r1.2 2 536886272 e2 = r2 at *
    generalize context_init shipped r2.2 3 536885760 e3 = r3 at *
    obtain ⟨k0, m0⟩ := r0
    obtain ⟨k1, m1⟩ := r1
    obtain ⟨k2, m2⟩ := r2
    obtain ⟨k3, m3⟩ := r3
    simp only at t0 t1 t2 t3 x0 x1 x2 x3 y0 y1 y2 y3 u0 u1 u2 u3
    subst t0 t1 t2 t3
    have hX : shipped.DUMMY_XPSR = 16777216 := rfl
    have hS : shipped.SIZE_TASK_STACK = 512 := rfl
    simp only [hX, hS, Nat.reduceSub] at *
    have x0f : m3 536887292 = 16777216 := by
      rw [u3 _ (Or.inr (by omega)), u2 _ (Or.inr (by omega)), u1 _ (Or.inr (by omega))]
      exact x0
    have y0f : m3 536887288 = e0 := by
      rw [u3 _ (Or.inr (by omega)), u2 _ (Or.inr (by omega)), u1 _ (Or.inr (by omega))]
      exact y0
    have x1f : m3 536886780 = 16777216 := by
      rw [u3 _ (Or.inr (by omega)), u2 _ (Or.inr (by omega))]
      exact x1
    have y1f : m3 536886776 = e1 := by
      rw [u3 _ (Or.inr (by omega)), u2 _ (Or.inr (by omega))]
      exact y1
    have x2f : m3 536886268 = 16777216 := by
      rw [u3 _ (Or.inr (by omega))]
      exact x2
    have y2f : m3 536886264 = e2 := by
      rw [u3 _ (Or.inr (by omega))]
      exact y2
    interval_cases i
    · refine ⟨⟨0, TaskState.READY, 536887232, 536887296, 512, e0⟩, e0, rfl, rfl, rfl, rfl, rfl, rfl,
        ?_, ?_, x0f, trivial, y0f, ?_, ?_, ?_⟩
      · show 536887232 + FRAME_BYTES = 536887296
        decide
      · show 536887296 - 512 ≤ 536887232
        decide
      · show m3 (uadd 536887232 56) = e0
        rw [show uadd 536887232 56 = 536887288 from by decide]
        exact y0f
      · show m3 (uadd 536887232 60) = 16777216
        rw [show uadd 536887232 60 = 536887292 from by decide]
        exact x0f
      · show uadd 536887232 FRAME_BYTES = 536887296
        decide
    · refine ⟨⟨1, TaskState.READY, 536886720, 536886784, 512, e1⟩, e1, rfl, rfl, rfl, rfl, rfl, rfl,
        ?_, ?_, x1f, trivial, y1f, ?_, ?_, ?_⟩
      · show 536886720 + FRAME_BYTES = 536886784
        decide
      · show 536886784 - 512 ≤ 536886720
        decide
      · show m3 (uadd 536886720 56) = e1
        rw [show uadd 536886720 56 = 536886776 from by decide]
        exact y1f
      · show m3 (uadd 536886720 60) = 16777216
        rw [show uadd 536886720 60 = 536886780 from by decide]
        exact x1f
      · show uadd 536886720 FRAME_BYTES = 536886784
        decide
    · refine ⟨⟨2, TaskState.READY, 536886208, 536886272, 512, e2⟩, e2, rfl, rfl, rfl, rfl, rfl, rfl,
        ?_, ?_, x2f, trivial, y2f, ?_, ?_, ?_⟩
      · show 536886208 + FRAME_BYTES = 536886272
        decide
      · show 536886272 - 512 ≤ 536886208
        decide
      · show m3 (uadd 536886208 56) = e2
        rw [show uadd 536886208 56 = 536886264 from by decide]
        exact y2f
      · show m3 (uadd 536886208 60) = 16777216
        rw [show uadd 536886208 60 = 536886268 from by decide]
        exact x2f
      · show uadd 536886208 FRAME_BYTES = 536886272
        decide
    · refine ⟨⟨3, TaskState.READY, 536885696, 536885760, 512, e3⟩, e3, rfl, rfl, rfl, rfl, rfl, rfl,
        ?_, ?_, x3, trivial, y3, ?_, ?_, ?_⟩
      · show 536885696 + FRAME_BYTES = 536885760
        decide
      · show 536885760 - 512 ≤ 536885696
        decide
      · show m3 (uadd 536885696 56) = e3
        rw [show uadd 536885696 56 = 536885752 from by decide]
        exact y3
      · show m3 (uadd 536885696 60) = 16777216
        rw [show uadd 536885696 60 = 536885756 from by decide]
        exact x3
      · show uadd 536885696 FRAME_BYTES = 536885760
        decide

/-- C4 (witness): zeroed memory, four entry points, task index 2. -/
theorem C4_initial_frame_task2 :
    ∃ t e, (system_init shipped [0x08000201, 0x08000241, 0x08000281, 0x080002C1]
        (fun _ => 0)).1[2]? = some t ∧
      [0x08000201, 0x08000241, 0x08000281, 0x080002C1][2]? = some e ∧
      t.id = 2 ∧ t.entry_point = e ∧
      (taskBases shipped)[2]? = some t.stack_base ∧
      t.stack_size = shipped.SIZE_TASK_STACK ∧
      t.saved_stack_pointer + FRAME_BYTES = t.stack_base ∧
      t.stack_base - t.stack_size ≤ t.saved_stack_pointer ∧
      (system_init shipped [0x08000201, 0x08000241, 0x08000281, 0x080002C1]
        (fun _ => 0)).2 (t.stack_base - 4) = shipped.DUMMY_XPSR ∧
      shipped.DUMMY_XPSR = 0x01000000 ∧
      (system_init shipped [0x08000201, 0x08000241, 0x08000281, 0x080002C1]
        (fun _ => 0)).2 (t.stack_base - 8) = e ∧
      (resume (system_init shipped [0x08000201, 0x08000241, 0x08000281, 0x080002C1]
        (fun _ => 0)).2 t.saved_stack_pointer).pc = e ∧
      (resume (system_init shipped [0x08000201, 0x08000241, 0x08000281, 0x080002C1]
        (fun _ => 0)).2 t.saved_stack_pointer).xpsr = 0x01000000 ∧
      (resume (system_init shipped [0x08000201, 0x08000241, 0x08000281, 0x080002C1]
        (fun _ => 0)).2 t.saved_stack_pointer).sp = t.stack_base :=
  C4_initial_frame (fun _ => 0) [0x08000201, 0x08000241, 0x08000281, 0x080002C1] rfl 2
    (by decide)

end RRScheduler
